import Mathlib

/-!
Verification of the hyperfleet-controller repository: a shallow embedding of
the bootstrap agent (cmd/bootstrap-service/main.go), the provider factory
(internal/provider), and the HypervisorMachineTemplate controller, together
with theorems settling the frozen claims about them.
-/

namespace HyperFleet

/-! Path utilities. These model the Unix behaviour of the Go standard library
functions path/filepath.Clean, Join and Dir, following their documented
algorithm (collapse separators, drop "." elements, resolve ".." elements,
drop ".." at the root). They operate on the character list of the string. -/

/-- Split a character list into slash-separated components. -/
def splitPath : List Char → List (List Char)
  | [] => [[]]
  | c :: rest =>
    if c = '/' then [] :: splitPath rest
    else
      match splitPath rest with
      | [] => [[c]]
      | p :: ps => (c :: p) :: ps

/-- Stack-based processing of path components, as in the documented algorithm
of filepath.Clean: empty and "." components are dropped, ".." pops the stack
unless the stack is empty (at the root ".." is dropped, otherwise kept). The
stack holds components in reverse order. -/
def cleanStack (rooted : Bool) : List (List Char) → List (List Char) → List (List Char)
  | stack, [] => stack
  | stack, p :: ps =>
    if p = [] ∨ p = ['.'] then cleanStack rooted stack ps
    else if p = ['.', '.'] then
      match stack with
      | [] => if rooted then cleanStack rooted [] ps else cleanStack rooted [['.', '.']] ps
      | q :: rest => if q = ['.', '.'] then cleanStack rooted (p :: stack) ps else cleanStack rooted rest ps
    else cleanStack rooted (p :: stack) ps

/-- Join components with the separator character. -/
def joinParts : List (List Char) → List Char
  | [] => []
  | [p] => p
  | p :: ps => p ++ '/' :: joinParts ps

/-- Clean a path, modelling filepath.Clean for Unix paths. -/
def cleanChars (l : List Char) : List Char :=
  if l = [] then ['.']
  else
    let rooted := l.head? = some '/'
    let parts := (cleanStack (decide rooted) [] (splitPath l)).reverse
    if rooted then '/' :: joinParts parts
    else if parts = [] then ['.'] else joinParts parts

/-- Models filepath.Clean. -/
def filepathClean (s : String) : String := ⟨cleanChars s.data⟩

/-- Models filepath.Join on two elements: non-empty elements are joined with
the separator and the result is cleaned; if every element is empty the result
is the empty string. -/
def filepathJoin (a b : String) : String :=
  if a = "" then (if b = "" then "" else filepathClean b)
  else if b = "" then filepathClean a
  else filepathClean (a ++ "/" ++ b)

/-- Characters of a path up to and including the last separator. -/
def takeToLastSep (l : List Char) : List Char :=
  (l.reverse.dropWhile (fun c => c ≠ '/')).reverse

/-- Models filepath.Dir: everything but the last path element, cleaned. -/
def filepathDir (s : String) : String := ⟨cleanChars (takeToLastSep s.data)⟩

/-! Bootstrap agent data model, from cmd/bootstrap-service/main.go. -/

/-- Default configuration values declared in main.go. -/
def DefaultInstallPath : String := "/opt/actions-runner"

/-- Default work directory declared in main.go. -/
def DefaultWorkDir : String := "/tmp/runner-work"

/-- Default configuration script name declared in main.go. -/
def DefaultConfigScript : String := "config.sh"

/-- Default run script name declared in main.go. -/
def DefaultRunScript : String := "run.sh"

/-- Cleanup delay in seconds declared in main.go. -/
def CleanupDelaySeconds : Nat := 2

/-- Nested runner block of RunnerConfig (download and install parameters). -/
structure RunnerSub where
  downloadURL : String
  installPath : String
  workDir : String
  configScript : String
  runScript : String
  os : String
  arch : String
deriving DecidableEq

/-- Nested SPIFFE block of RunnerConfig. -/
structure SpiffeSub where
  joinToken : String
  spiffeId : String
  enabled : Bool
deriving DecidableEq

/-- RunnerConfig, the configuration the agent loads from the VM. -/
structure RunnerConfig where
  method : String
  platform : String
  runnerToken : String
  registrationURL : String
  runnerName : String
  labels : List String
  expiresAt : String
  runner : RunnerSub
  spiffe : SpiffeSub
deriving DecidableEq

/-! Archive extraction, from downloadGitHubRunner in main.go. -/

/-- Tar entry type flags relevant to the extraction switch in
downloadGitHubRunner: TypeDir and TypeReg are handled, everything else
falls through the switch. -/
inductive TypeFlag
  | dir | reg | symlink | hardlink | chr | blk | fifo | other
deriving DecidableEq

/-- A tar entry as seen by the extraction loop: header name, type flag, and
the file content carried for regular entries. -/
structure TarEntry where
  name : String
  typeflag : TypeFlag
  content : String
deriving DecidableEq

/-- A filesystem mutation performed by the extraction loop. -/
inductive FsWrite
  | mkdirAll (path : String)
  | writeFile (path : String) (content : String)
deriving DecidableEq

/-- One iteration of the extraction loop in downloadGitHubRunner: join the
header name to the install path, reject the entry unless it is the current
directory entry or the joined path has the cleaned install path plus the
separator as a prefix, then create a directory for TypeDir, create the parent
directory and write the file content for TypeReg, and skip any other type. -/
def extractEntry (installPath : String) (e : TarEntry) : Except String (List FsWrite) :=
  let targetPath := filepathJoin installPath e.name
  if e.name != "./" && !((filepathClean installPath ++ "/").data.isPrefixOf targetPath.data) then
    Except.error ("invalid file path in archive: " ++ e.name)
  else if e.typeflag = TypeFlag.dir then
    Except.ok [FsWrite.mkdirAll targetPath]
  else if e.typeflag = TypeFlag.reg then
    Except.ok [FsWrite.mkdirAll (filepathDir targetPath),
               FsWrite.writeFile targetPath e.content]
  else
    Except.ok []

/-- The extraction loop: process entries in order, stop at the first error,
and collect the filesystem writes performed. -/
def extractEntries (installPath : String) : List TarEntry → List FsWrite × Option String
  | [] => ([], none)
  | e :: rest =>
    match extractEntry installPath e with
    | Except.error msg => ([], some msg)
    | Except.ok ws =>
      let r := extractEntries installPath rest
      (ws ++ r.1, r.2)

/-- Spec notion: the target path obtained by joining the entry name to the
install path resolves strictly inside the install directory. -/
def resolvesInside (installPath name : String) : Bool :=
  ((filepathClean installPath ++ "/").data).isPrefixOf (filepathJoin installPath name).data

/-- Spec notion: the target path escapes the install directory, meaning it is
neither the install directory itself nor a path inside it. -/
def escapesInstall (installPath name : String) : Bool :=
  (filepathJoin installPath name != filepathClean installPath) &&
    !(resolvesInside installPath name)

/-- A path is the install directory itself or lies inside it. -/
def insideOrAt (installPath p : String) : Bool :=
  (p == filepathClean installPath) ||
    ((filepathClean installPath ++ "/").data).isPrefixOf p.data

/-! Runner configuration, from configureRunner in main.go. -/

/-- An external command invocation: executable path, arguments, and the
working directory set on the command. -/
structure ExecInvocation where
  name : String
  args : List String
  dir : String
deriving DecidableEq

/-- Outcome of one external effect: none is success, some msg is failure
with that message. -/
abbrev EffResult := Option String

/-- Environment of external effects consumed by the agent: results of the
reboot system call, of opening and writing the sysrq trigger and the power
management files, of each shutdown command, of the directory removals during
cleanup, and of executed commands. -/
structure AgentEnv where
  rebootRes : EffResult
  sysrqOpenRes : EffResult
  sysrqWriteRes : EffResult
  powerStateOpenRes : EffResult
  powerDiskOpenRes : EffResult
  powerDiskWriteRes : EffResult
  runCmdRes : List String → EffResult
  removeInstallRes : EffResult
  removeWorkRes : EffResult
  execRes : ExecInvocation → EffResult

/-- Observable action performed by the agent during cleanup and shutdown. -/
inductive AgentEvent
  | syncFs
  | rebootSyscall
  | sysrqAttempt
  | powerStateAttempt
  | tryCommand (argv : List String)
  | removeAll (path : String) (res : EffResult)
  | sleep (seconds : Nat)
deriving DecidableEq

/-- Models configureRunner: build the config script path inside the install
path, pass the registration url, token, runner name, comma-joined labels,
work directory and the unattended and ephemeral flags, set the install path
as working directory, and run the command. -/
def configureRunner (cfg : RunnerConfig) (env : AgentEnv) : ExecInvocation × Except String Unit :=
  let installPath := if cfg.runner.installPath = "" then DefaultInstallPath else cfg.runner.installPath
  let workDir := if cfg.runner.workDir = "" then DefaultWorkDir else cfg.runner.workDir
  let configScript := if cfg.runner.configScript = "" then DefaultConfigScript else cfg.runner.configScript
  let configScriptPath := filepathJoin installPath configScript
  let inv : ExecInvocation :=
    ⟨configScriptPath,
     ["--url", cfg.registrationURL,
      "--token", cfg.runnerToken,
      "--name", cfg.runnerName,
      "--labels", String.intercalate "," cfg.labels,
      "--work", workDir,
      "--unattended",
      "--ephemeral"],
     installPath⟩
  (inv, match env.execRes inv with
        | none => Except.ok ()
        | some e => Except.error e)

/-! Shutdown strategies, from shutdownVM and its helpers in main.go. -/

/-- Models shutdownViaSyscall: sync the filesystems, then issue the power-off
reboot system call; a system call failure is wrapped in an error. -/
def shutdownViaSyscall (env : AgentEnv) : List AgentEvent × Except String Unit :=
  ([AgentEvent.syncFs, AgentEvent.rebootSyscall],
   match env.rebootRes with
   | none => Except.ok ()
   | some e => Except.error ("syscall reboot failed: " ++ e))

/-- Models shutdownViaSysRq: open the sysrq trigger file and write the
power-off character, failing if either step fails. -/
def shutdownViaSysRq (env : AgentEnv) : List AgentEvent × Except String Unit :=
  ([AgentEvent.sysrqAttempt],
   match env.sysrqOpenRes with
   | some e => Except.error ("failed to open sysrq-trigger: " ++ e)
   | none =>
     match env.sysrqWriteRes with
     | some e => Except.error ("failed to write to sysrq-trigger: " ++ e)
     | none => Except.ok ())

/-- Models shutdownViaPowerState: open the power state file, then open the
power disk file and write the shutdown command, failing if any step fails. -/
def shutdownViaPowerState (env : AgentEnv) : List AgentEvent × Except String Unit :=
  ([AgentEvent.powerStateAttempt],
   match env.powerStateOpenRes with
   | some e => Except.error ("failed to open power state file: " ++ e)
   | none =>
     match env.powerDiskOpenRes with
     | some e => Except.error ("failed to open power disk file: " ++ e)
     | none =>
       match env.powerDiskWriteRes with
       | some e => Except.error ("failed to write to power disk file: " ++ e)
       | none => Except.ok ())

/-- The list of shutdown commands tried by shutdownViaCommand, in order. -/
def shutdownCommands : List (List String) :=
  [["sudo", "shutdown", "-h", "now"],
   ["shutdown", "-h", "now"],
   ["sudo", "poweroff"],
   ["poweroff"],
   ["sudo", "halt", "-p"],
   ["halt", "-p"],
   ["sudo", "systemctl", "poweroff"],
   ["systemctl", "poweroff"]]

/-- Rendering of the final error value carried by the command loop; with the
nil error it mirrors the Go formatting of a nil wrapped error, a case the
fixed non-empty command list never reaches. -/
def renderGoErr : Option String → String
  | some e => e
  | none => "%!w(<nil>)"

/-- The command loop of shutdownViaCommand: try each command in order,
remember the last failure, succeed at the first command that succeeds, and
when every command failed report an aggregate error naming the last error. -/
def runShutdownCommands (env : AgentEnv) : List (List String) → Option String → List AgentEvent × Except String Unit
  | [], lastErr =>
    ([], Except.error ("all shutdown methods failed, last error: " ++ renderGoErr lastErr))
  | argv :: rest, _lastErr =>
    match env.runCmdRes argv with
    | some e =>
      let r := runShutdownCommands env rest (some e)
      (AgentEvent.tryCommand argv :: r.1, r.2)
    | none => ([AgentEvent.tryCommand argv], Except.ok ())

/-- Models shutdownViaCommand: run the fixed command list with no previous
error. -/
def shutdownViaCommand (env : AgentEnv) : List AgentEvent × Except String Unit :=
  runShutdownCommands env shutdownCommands none

/-- Models shutdownVM: try the system call, the sysrq trigger, the power
management interface and the command list in that order, returning at the
first success. -/
def shutdownVM (env : AgentEnv) : List AgentEvent × Except String Unit :=
  let s1 := shutdownViaSyscall env
  match s1.2 with
  | Except.ok _ => s1
  | Except.error _ =>
    let s2 := shutdownViaSysRq env
    match s2.2 with
    | Except.ok _ => (s1.1 ++ s2.1, Except.ok ())
    | Except.error _ =>
      let s3 := shutdownViaPowerState env
      match s3.2 with
      | Except.ok _ => (s1.1 ++ s2.1 ++ s3.1, Except.ok ())
      | Except.error _ =>
        let s4 := shutdownViaCommand env
        (s1.1 ++ s2.1 ++ s3.1 ++ s4.1, s4.2)

/-- Models cleanup: remove the install path and the work directory with the
failures only logged, sleep, run shutdownVM, and return success whether or
not the shutdown succeeded. -/
def cleanup (cfg : RunnerConfig) (env : AgentEnv) : List AgentEvent × Except String Unit :=
  let installPath := if cfg.runner.installPath = "" then DefaultInstallPath else cfg.runner.installPath
  let workDir := if cfg.runner.workDir = "" then DefaultWorkDir else cfg.runner.workDir
  let s := shutdownVM env
  (AgentEvent.removeAll installPath env.removeInstallRes ::
     AgentEvent.removeAll workDir env.removeWorkRes ::
     AgentEvent.sleep CleanupDelaySeconds :: s.1,
   Except.ok ())

/-- The system call strategy succeeds in the given environment. -/
def syscallOk (env : AgentEnv) : Bool := env.rebootRes.isNone

/-- The sysrq strategy succeeds in the given environment. -/
def sysrqOk (env : AgentEnv) : Bool :=
  env.sysrqOpenRes.isNone && env.sysrqWriteRes.isNone

/-- The power management strategy succeeds in the given environment. -/
def powerOk (env : AgentEnv) : Bool :=
  env.powerStateOpenRes.isNone && env.powerDiskOpenRes.isNone && env.powerDiskWriteRes.isNone

/-- Every shutdown command fails in the given environment. -/
def allCmdsFail (env : AgentEnv) : Bool :=
  shutdownCommands.all (fun argv => (env.runCmdRes argv).isSome)

/-- The commands the fallback loop attempts: the failing front of the list
followed by the first succeeding command when one exists. -/
def cmdAttempts (env : AgentEnv) : List (List String) :=
  (shutdownCommands.takeWhile fun argv => (env.runCmdRes argv).isSome) ++
    (shutdownCommands.drop
      (shutdownCommands.takeWhile fun argv => (env.runCmdRes argv).isSome).length).take 1

/-- The last command failure recorded by the fallback loop. -/
def lastCmdErr (env : AgentEnv) (cmds : List (List String)) (le : Option String) : Option String :=
  cmds.foldl (fun acc argv =>
    match env.runCmdRes argv with
    | some e => some e
    | none => acc) le

/-! Main dispatch, from main and Run in main.go. -/

/-- Phase of the bootstrap pipeline executed by Run. -/
inductive PhaseStep
  | download | configure | run | cleanupPhase
deriving DecidableEq

/-- Outcomes of the three fallible pipeline phases of Run. -/
structure PhaseResults where
  downloadRes : EffResult
  configureRes : EffResult
  runRes : EffResult
deriving DecidableEq

/-- Models Run: download, configure and run in order, wrapping the first
failure; cleanup always reports success. -/
def runPipeline (r : PhaseResults) : List PhaseStep × Except String Unit :=
  match r.downloadRes with
  | some e => ([PhaseStep.download], Except.error ("failed to download runner: " ++ e))
  | none =>
    match r.configureRes with
    | some e => ([PhaseStep.download, PhaseStep.configure],
                 Except.error ("failed to configure runner: " ++ e))
    | none =>
      match r.runRes with
      | some e => ([PhaseStep.download, PhaseStep.configure, PhaseStep.run],
                   Except.error ("failed to run runner: " ++ e))
      | none => ([PhaseStep.download, PhaseStep.configure, PhaseStep.run, PhaseStep.cleanupPhase],
                 Except.ok ())

/-- Models performSPIFFEAttestation: fail when neither a join token nor a
SPIFFE id is configured. -/
def performSPIFFEAttestation (cfg : RunnerConfig) : Except String Unit :=
  if cfg.spiffe.joinToken = "" ∧ cfg.spiffe.spiffeId = "" then
    Except.error "SPIFFE attestation enabled but no join token or SPIFFE ID provided"
  else Except.ok ()

/-- Run wrapped with the fatal-error formatting used by main. -/
def runPipelineFatal (r : PhaseResults) : List PhaseStep × Except String Unit :=
  let p := runPipeline r
  (p.1, match p.2 with
        | Except.error e => Except.error ("GitHub bootstrap failed: " ++ e)
        | Except.ok _ => Except.ok ())

/-- Models the method switch in main: the runner-token method performs the
optional SPIFFE attestation and runs the pipeline; the join-token method
terminates with a fatal not-implemented error; any other method terminates
with a fatal unsupported-method error. -/
def mainDispatch (cfg : RunnerConfig) (r : PhaseResults) : List PhaseStep × Except String Unit :=
  if cfg.method = "runner-token" then
    if cfg.spiffe.enabled then
      match performSPIFFEAttestation cfg with
      | Except.error e => ([], Except.error ("SPIFFE attestation failed: " ++ e))
      | Except.ok _ => runPipelineFatal r
    else runPipelineFatal r
  else if cfg.method = "join-token" then
    ([], Except.error "Pure SPIFFE/SPIRE bootstrap not yet implemented")
  else
    ([], Except.error ("Unsupported attestation method: " ++ cfg.method))

/-! Provider factory and client, from internal/provider. -/

/-- Client configuration, from internal/provider/interface.go. -/
structure ClientConfig where
  endpoint : String
  timeout : Int
deriving DecidableEq

/-- Authentication configuration, from internal/provider/interface.go. -/
structure AuthConfig where
  authType : String
  tokenID : String
  tokenSecret : String
  username : String
  password : String
deriving DecidableEq

/-- The Proxmox client adapter, from internal/provider/proxmox.go. -/
structure ProxmoxClient where
  endpoint : String
  auth : AuthConfig
deriving DecidableEq

/-- Models NewProxmoxClient: a nil client configuration or a nil auth
configuration is an error; otherwise a client is built. The construction of
the underlying external library client is modelled as succeeding. -/
def NewProxmoxClient (config : Option ClientConfig) (auth : Option AuthConfig) :
    Except String ProxmoxClient :=
  match config with
  | none => Except.error "client config is required"
  | some c =>
    match auth with
    | none => Except.error "auth config is required"
    | some a => Except.ok ⟨c.endpoint, a⟩

/-- Lower-casing of a string character by character, modelling the behaviour
of strings.ToLower on the ASCII provider names involved. -/
def goToLower (s : String) : String := ⟨s.data.map Char.toLower⟩

/-- Models CreateClient from internal/provider/factory.go: dispatch on the
lower-cased provider string, with proxmox the only supported provider. -/
def CreateClient (provider : String) (config : Option ClientConfig) (auth : Option AuthConfig) :
    Except String ProxmoxClient :=
  if goToLower provider = "proxmox" then NewProxmoxClient config auth
  else Except.error ("unsupported hypervisor provider: " ++ provider)

/-- Method names of the HypervisorClient interface declared in
internal/provider/interface.go. -/
def hypervisorClientMethods : List String := ["TestConnection", "Close"]

/-- Method names of the provider capability interface promised by the spec
for the Hypervisor Provider boundary. -/
def specProviderCapabilities : List String :=
  ["CreateVM", "DeleteVM", "GetVMStatus", "TagVM", "ValidateTemplate"]

/-! HypervisorMachineTemplate controller, from the reconciler in
internal/controller. -/

/-- A status condition record with type, status, reason and message. -/
structure MetaCondition where
  condType : String
  status : String
  reason : String
  message : String
deriving DecidableEq

/-- Spec fields of a HypervisorCluster used by validation. -/
structure HypervisorClusterSpec where
  provider : String
  endpoint : String
deriving DecidableEq

/-- A HypervisorCluster with its status conditions. -/
structure HypervisorCluster where
  spec : HypervisorClusterSpec
  conditions : List MetaCondition
deriving DecidableEq

/-- Proxmox template parameters of a HypervisorMachineTemplate. -/
structure ProxmoxTemplateSpec where
  templateID : Int
deriving DecidableEq

/-- Resource requirements of a HypervisorMachineTemplate. -/
structure TemplateResources where
  cpu : Int
deriving DecidableEq

/-- The fields of a HypervisorMachineTemplate consulted by validation. -/
structure HypervisorMachineTemplate where
  clusterRefName : String
  proxmox : Option ProxmoxTemplateSpec
  resources : TemplateResources
deriving DecidableEq

/-- The status fields of a HypervisorMachineTemplate touched by validation. -/
structure TemplateStatus where
  conditions : List MetaCondition
  templateAvailable : Bool
  validationStatus : String
deriving DecidableEq

/-- Outcome of validateTemplate: the updated status fields and whether the
provider factory was invoked to create a client. -/
structure ValidateOutcome where
  conditions : List MetaCondition
  templateAvailable : Bool
  validationStatus : String
  createClientCalled : Bool
deriving DecidableEq

/-- Result of fetching the referenced HypervisorCluster. -/
inductive ClusterLookup
  | notFound
  | getError (msg : String)
  | found (cluster : HypervisorCluster)

/-- Default provider timeout declared in the controller. -/
def DefaultProviderTimeout : Int := 300

/-- Models isClusterReady: the cluster has a Ready condition with status
True. -/
def isClusterReady (cluster : HypervisorCluster) : Bool :=
  cluster.conditions.any (fun c => c.condType == "Ready" && c.status == "True")

/-- Models setTemplateValidCondition: replace the first condition with the
same type, appending when none exists. -/
def setCondAux (c : MetaCondition) : List MetaCondition → List MetaCondition
  | [] => [c]
  | x :: xs => if x.condType == c.condType then c :: xs else x :: setCondAux c xs

/-- Find the condition with the given type. -/
def findCondition (conds : List MetaCondition) (t : String) : Option MetaCondition :=
  conds.find? (fun c => c.condType == t)

/-- Models validateWithProvider: create a provider client for the cluster
provider, then check the Proxmox template identifier and the CPU
requirement. -/
def validateWithProvider (template : HypervisorMachineTemplate) (cluster : HypervisorCluster) :
    Except String Unit :=
  match CreateClient cluster.spec.provider
      (some ⟨cluster.spec.endpoint, DefaultProviderTimeout⟩)
      (some ⟨"token", "", "", "", ""⟩) with
  | Except.error e => Except.error ("failed to create provider client: " ++ e)
  | Except.ok _ =>
    match template.proxmox with
    | some p =>
      if p.templateID ≤ 0 then
        Except.error ("invalid Proxmox template ID: " ++ toString p.templateID)
      else if template.resources.cpu ≤ 0 then
        Except.error ("invalid CPU specification: " ++ toString template.resources.cpu)
      else Except.ok ()
    | none =>
      if template.resources.cpu ≤ 0 then
        Except.error ("invalid CPU specification: " ++ toString template.resources.cpu)
      else Except.ok ()

/-- Models validateTemplate: a missing referenced cluster or a cluster
without a Ready condition sets the TemplateValid condition to False without
touching the provider factory; otherwise validation runs against the
provider and the condition records its outcome. A non-not-found fetch error
is returned unchanged. -/
def validateTemplate (lookup : ClusterLookup) (template : HypervisorMachineTemplate)
    (st : TemplateStatus) : Except String ValidateOutcome :=
  match lookup with
  | ClusterLookup.notFound =>
    Except.ok ⟨setCondAux ⟨"TemplateValid", "False", "ClusterNotFound",
        "Referenced HypervisorCluster not found"⟩ st.conditions,
      st.templateAvailable, st.validationStatus, false⟩
  | ClusterLookup.getError m => Except.error m
  | ClusterLookup.found cluster =>
    if !(isClusterReady cluster) then
      Except.ok ⟨setCondAux ⟨"TemplateValid", "False", "ClusterNotReady",
          "Referenced HypervisorCluster is not ready"⟩ st.conditions,
        st.templateAvailable, st.validationStatus, false⟩
    else
      match validateWithProvider template cluster with
      | Except.error e =>
        Except.ok ⟨setCondAux ⟨"TemplateValid", "False", "ValidationFailed", e⟩ st.conditions,
          st.templateAvailable, st.validationStatus, true⟩
      | Except.ok _ =>
        Except.ok ⟨setCondAux ⟨"TemplateValid", "True", "ValidationSucceeded",
            "Template validation succeeded"⟩ st.conditions,
          true, "Valid", true⟩

/-! Reconciliation engine model. The repository contains no MachineClaim
reconciliation engine under src, only its design documents, so the parts the
claims need are modelled from the spec. -/

/-- Modelled from the spec: the ownership tags attached to every
hypervisor-side VM (managing-system marker, cluster, claim and pool names,
creation timestamp, operator-instance identifier); the MachineClaim engine
that reads them is missing from src. -/
structure OwnershipTags where
  managedBy : String
  instanceID : String
  clusterName : String
  claimName : String
  poolName : String
  createdAt : String
deriving DecidableEq

/-- Modelled from the spec: the identity of the operator instance performing
a lifecycle operation. -/
structure OperatorIdentity where
  managedByMarker : String
  instanceID : String
deriving DecidableEq

/-- Modelled from the spec: ownership validation, the sole authorization
boundary; it requires both the managing-system marker and the
operator-instance identifier to match the caller. -/
def validateVMOwnership (op : OperatorIdentity) (tags : OwnershipTags) : Bool :=
  tags.managedBy == op.managedByMarker && tags.instanceID == op.instanceID

/-- Phases of a MachineClaim. -/
inductive ClaimPhase
  | pending | provisioning | bootstrapping | ready | draining | terminating | failed
deriving DecidableEq

/-- The VM reference recorded on a MachineClaim once provisioned. -/
structure VMRef where
  vmID : String
  node : String
deriving DecidableEq

/-- Modelled from the spec: the mutable fields of a MachineClaim the engine
drives (phase, VM reference, condition message). -/
structure MachineClaim where
  phase : ClaimPhase
  vmRef : Option VMRef
  message : String
deriving DecidableEq

/-- A call the engine issues against the hypervisor provider. -/
inductive EngineCall
  | createVM
  | deleteVM (vmID : String)
deriving DecidableEq

/-- Modelled from the spec: the Terminating step of the missing MachineClaim
engine. With no VM reference it is a no-op success; with a VM reference it
re-validates ownership and deletes only on success, while a validation
failure marks the claim Failed with a descriptive message and deletes
nothing. -/
def reconcileTerminating (op : OperatorIdentity) (claim : MachineClaim)
    (vmTags : OwnershipTags) : MachineClaim × List EngineCall :=
  match claim.vmRef with
  | none => (claim, [])
  | some vm =>
    if validateVMOwnership op vmTags then
      (⟨ClaimPhase.terminating, none, claim.message⟩, [EngineCall.deleteVM vm.vmID])
    else
      (⟨ClaimPhase.failed, claim.vmRef,
        "ownership validation failed: VM tags do not match operator instance"⟩, [])

/-- Modelled from the spec: the Provisioning step of the missing MachineClaim
engine. The engine always checks for an existing VM reference before calling
create; with no reference it creates a VM and records the reference, with a
reference it creates nothing. -/
def reconcileProvisionStep (claim : MachineClaim) (newVM : VMRef) :
    MachineClaim × List EngineCall :=
  match claim.vmRef with
  | some _ => (claim, [])
  | none =>
    (⟨ClaimPhase.provisioning, some newVM, claim.message⟩, [EngineCall.createVM])

/-- Two consecutive provisioning reconciles of the same claim, collecting
every provider call issued. -/
def reconcileProvisionTwice (claim : MachineClaim) (newVM : VMRef) : List EngineCall :=
  let r1 := reconcileProvisionStep claim newVM
  let r2 := reconcileProvisionStep r1.1 newVM
  r1.2 ++ r2.2

/-! Supporting lemmas about the path functions. -/

theorem splitPath_ne_nil (l : List Char) : splitPath l ≠ [] := by
  induction l with
  | nil => simp [splitPath]
  | cons c rest ih =>
    rw [splitPath]
    split
    · simp
    · rcases h : splitPath rest with _ | ⟨p, ps⟩
      · exact absurd h ih
      · simp [h]

theorem splitPath_append (l r : List Char) :
    splitPath (l ++ '/' :: r) = splitPath l ++ splitPath r := by
  induction l with
  | nil => simp [splitPath]
  | cons c rest ih =>
    by_cases hc : c = '/'
    · subst hc
      simp [splitPath, ih]
    · simp only [List.cons_append, splitPath, if_neg hc]
      simp only [List.append_eq]
      rw [ih]
      rcases h : splitPath rest with _ | ⟨p, ps⟩
      · exact absurd h (splitPath_ne_nil rest)
      · simp [h]

theorem cleanStack_append (rooted : Bool) (ps qs stack : List (List Char)) :
    cleanStack rooted stack (ps ++ qs) =
      cleanStack rooted (cleanStack rooted stack ps) qs := by
  induction ps generalizing stack with
  | nil => rfl
  | cons p ps ih =>
    by_cases h1 : p = [] ∨ p = ['.']
    · simp only [List.cons_append, cleanStack, if_pos h1]
      exact ih stack
    · by_cases h2 : p = ['.', '.']
      · rcases stack with _ | ⟨q, rest⟩
        · by_cases h3 : rooted = true
          · simp only [List.cons_append, cleanStack, if_neg h1, if_pos h2, if_pos h3]
            exact ih []
          · simp only [List.cons_append, cleanStack, if_neg h1, if_pos h2, if_neg h3]
            exact ih [['.', '.']]
        · by_cases h3 : q = ['.', '.']
          · simp only [List.cons_append, cleanStack, if_neg h1, if_pos h2, if_pos h3]
            exact ih (p :: q :: rest)
          · simp only [List.cons_append, cleanStack, if_neg h1, if_pos h2, if_neg h3]
            exact ih rest
      · simp only [List.cons_append, cleanStack, if_neg h1, if_neg h2]
        exact ih (p :: stack)

theorem data_append (a b : String) : (a ++ b).data = a.data ++ b.data := by
  cases a
  cases b
  rfl

theorem cleanStack_dot_nil (rooted : Bool) (s : List (List Char)) :
    cleanStack rooted s [['.'], []] = s := rfl

theorem cleanChars_append_dotSlash (l : List Char) (h : l ≠ []) :
    cleanChars (l ++ ['/', '.', '/']) = cleanChars l := by
  have hne : l ++ ['/', '.', '/'] ≠ [] := by simp
  have hhead : (l ++ ['/', '.', '/']).head? = l.head? := by
    rcases l with _ | ⟨c, rest⟩
    · exact absurd rfl h
    · rfl
  have hsp : splitPath (l ++ ['/', '.', '/']) = splitPath l ++ [['.'], []] := by
    have : l ++ ['/', '.', '/'] = l ++ '/' :: ['.', '/'] := rfl
    rw [this, splitPath_append]
    rfl
  simp only [cleanChars, if_neg hne, if_neg h, hhead, hsp, cleanStack_append,
    cleanStack_dot_nil]

theorem join_dotSlash (s : String) : filepathJoin s "./" = filepathClean s := by
  by_cases hs : s = ""
  · subst hs
    rfl
  · have hd : s.data ≠ [] := by
      intro hnil
      apply hs
      cases s
      simp only at hnil
      simp [hnil]
    rw [filepathJoin, if_neg hs, if_neg (by decide : ¬("./" : String) = "")]
    have hdata : (s ++ "/" ++ "./").data = s.data ++ ['/', '.', '/'] := by
      rw [data_append, data_append, List.append_assoc]
      rfl
    unfold filepathClean
    rw [hdata]
    exact congrArg String.mk (cleanChars_append_dotSlash s.data hd)

/-! Supporting lemmas about archive extraction. -/

theorem extractEntry_escape_error (installPath : String) (e : TarEntry)
    (h : escapesInstall installPath e.name = true) :
    extractEntry installPath e =
      Except.error ("invalid file path in archive: " ++ e.name) := by
  rw [escapesInstall, Bool.and_eq_true, bne_iff_ne, Bool.not_eq_true'] at h
  obtain ⟨hne, hpre⟩ := h
  rw [resolvesInside] at hpre
  have hname : e.name ≠ "./" := by
    intro heq
    rw [heq, join_dotSlash] at hne
    exact hne rfl
  have hb : (e.name != "./" &&
      !((filepathClean installPath ++ "/").data.isPrefixOf
        (filepathJoin installPath e.name).data)) = true := by
    rw [Bool.and_eq_true, bne_iff_ne, hpre]
    exact ⟨hname, rfl⟩
  simp only [extractEntry, hb, if_true]

theorem extractEntry_writes_inside (installPath : String) (e : TarEntry) (ws : List FsWrite)
    (hok : extractEntry installPath e = Except.ok ws) (p c : String)
    (hmem : FsWrite.writeFile p c ∈ ws) : insideOrAt installPath p = true := by
  simp only [extractEntry] at hok
  by_cases hcheck : (e.name != "./" &&
      !((filepathClean installPath ++ "/").data.isPrefixOf
        (filepathJoin installPath e.name).data)) = true
  · rw [if_pos hcheck] at hok
    exact absurd hok (by simp)
  · rw [if_neg hcheck] at hok
    rw [Bool.and_eq_true, not_and_or] at hcheck
    by_cases hd : e.typeflag = TypeFlag.dir
    · rw [if_pos hd] at hok
      simp only [Except.ok.injEq] at hok
      subst hok
      simp at hmem
    rw [if_neg hd] at hok
    by_cases hr : e.typeflag = TypeFlag.reg
    swap
    · rw [if_neg hr] at hok
      simp only [Except.ok.injEq] at hok
      subst hok
      simp at hmem
    rw [if_pos hr] at hok
    simp only [Except.ok.injEq] at hok
    subst hok
    simp at hmem
    obtain ⟨hp, _⟩ := hmem
    subst hp
    rcases hcheck with hname | hpre
    · have hname2 : e.name = "./" := by simpa using hname
      rw [insideOrAt, hname2, join_dotSlash]
      simp
    · have hpre2 : ((filepathClean installPath ++ "/").data.isPrefixOf
          (filepathJoin installPath e.name).data) = true := by simpa using hpre
      rw [insideOrAt, hpre2]
      simp

theorem extractEntries_writes_inside (installPath : String) (entries : List TarEntry)
    (p c : String) (hmem : FsWrite.writeFile p c ∈ (extractEntries installPath entries).1) :
    insideOrAt installPath p = true := by
  induction entries with
  | nil => simp [extractEntries] at hmem
  | cons e rest ih =>
    rw [extractEntries] at hmem
    cases hE : extractEntry installPath e with
    | error msg => rw [hE] at hmem; simp at hmem
    | ok ws =>
      rw [hE] at hmem
      simp only [List.mem_append] at hmem
      rcases hmem with h1 | h2
      · exact extractEntry_writes_inside installPath e ws hE p c h1
      · exact ih h2

theorem extractEntries_error_of_escape (installPath : String) (pre rest : List TarEntry)
    (e : TarEntry) (h : escapesInstall installPath e.name = true) :
    ((extractEntries installPath (pre ++ e :: rest)).2).isSome = true := by
  induction pre with
  | nil =>
    rw [List.nil_append, extractEntries, extractEntry_escape_error installPath e h]
    rfl
  | cons x pre ih =>
    rw [List.cons_append, extractEntries]
    cases hx : extractEntry installPath x with
    | error msg => rfl
    | ok ws => simpa using ih

theorem extractEntry_inside_ok (installPath : String) (e : TarEntry)
    (h : resolvesInside installPath e.name = true) :
    extractEntry installPath e = Except.ok (
      if e.typeflag = TypeFlag.dir then
        [FsWrite.mkdirAll (filepathJoin installPath e.name)]
      else if e.typeflag = TypeFlag.reg then
        [FsWrite.mkdirAll (filepathDir (filepathJoin installPath e.name)),
         FsWrite.writeFile (filepathJoin installPath e.name) e.content]
      else []) := by
  rw [resolvesInside] at h
  have hcheck : (e.name != "./" &&
      !((filepathClean installPath ++ "/").data.isPrefixOf
        (filepathJoin installPath e.name).data)) = false := by
    rw [h]
    simp
  simp only [extractEntry, hcheck, Bool.false_eq_true, if_false]
  split_ifs <;> rfl

/-! Supporting lemmas about the shutdown strategies. -/

theorem syscall_ok_iff (env : AgentEnv) :
    (shutdownViaSyscall env).2 = Except.ok () ↔ syscallOk env = true := by
  cases h : env.rebootRes <;> simp [shutdownViaSyscall, syscallOk, h]

theorem sysrq_ok_iff (env : AgentEnv) :
    (shutdownViaSysRq env).2 = Except.ok () ↔ sysrqOk env = true := by
  cases h1 : env.sysrqOpenRes <;> cases h2 : env.sysrqWriteRes <;>
    simp [shutdownViaSysRq, sysrqOk, h1, h2]

theorem power_ok_iff (env : AgentEnv) :
    (shutdownViaPowerState env).2 = Except.ok () ↔ powerOk env = true := by
  cases h1 : env.powerStateOpenRes <;> cases h2 : env.powerDiskOpenRes <;>
    cases h3 : env.powerDiskWriteRes <;>
    simp [shutdownViaPowerState, powerOk, h1, h2, h3]

theorem strategy_err_false {p : Bool} {r : Except String Unit}
    (hiff : r = Except.ok () ↔ p = true) {e : String}
    (h : r = Except.error e) : p = false := by
  cases hb : p
  · rfl
  · rw [hiff.mpr hb] at h
    exact absurd h (by simp)

theorem runShutdownCommands_trace (env : AgentEnv) (cmds : List (List String))
    (le : Option String) :
    (runShutdownCommands env cmds le).1 =
      ((cmds.takeWhile fun argv => (env.runCmdRes argv).isSome) ++
        (cmds.drop (cmds.takeWhile fun argv => (env.runCmdRes argv).isSome).length).take 1).map
        AgentEvent.tryCommand := by
  induction cmds generalizing le with
  | nil => rfl
  | cons a rest ih =>
    cases ha : env.runCmdRes a with
    | some e =>
      simp only [runShutdownCommands, ha, List.takeWhile_cons, Option.isSome_some, if_true,
        List.length_cons, List.drop_succ_cons, List.cons_append, List.map_cons]
      rw [ih (some e)]
    | none =>
      simp [runShutdownCommands, ha, List.takeWhile_cons]

theorem runShutdownCommands_allFail (env : AgentEnv) (cmds : List (List String))
    (le : Option String) (h : ∀ argv ∈ cmds, (env.runCmdRes argv).isSome = true) :
    (runShutdownCommands env cmds le).2 =
      Except.error ("all shutdown methods failed, last error: " ++
        renderGoErr (lastCmdErr env cmds le)) := by
  induction cmds generalizing le with
  | nil => rfl
  | cons a rest ih =>
    have ha := h a (List.mem_cons_self a rest)
    cases hres : env.runCmdRes a with
    | none => rw [hres] at ha; exact absurd ha (by simp)
    | some e =>
      simp only [runShutdownCommands, hres, lastCmdErr, List.foldl_cons]
      exact ih (some e) (fun argv hm => h argv (List.mem_cons_of_mem a hm))

theorem runShutdownCommands_ok (env : AgentEnv) (cmds : List (List String))
    (le : Option String) (h : ∃ argv ∈ cmds, env.runCmdRes argv = none) :
    (runShutdownCommands env cmds le).2 = Except.ok () := by
  induction cmds generalizing le with
  | nil => simp at h
  | cons a rest ih =>
    cases hres : env.runCmdRes a with
    | none => simp [runShutdownCommands, hres]
    | some e =>
      simp only [runShutdownCommands, hres]
      apply ih
      rcases h with ⟨argv, hm, hn⟩
      rcases List.mem_cons.mp hm with rfl | hm2
      · rw [hres] at hn; exact absurd hn (by simp)
      · exact ⟨argv, hm2, hn⟩

/-! Claim theorems. -/

/-- C1: for every tar entry processed by the download and extract step, an
entry whose name joined to the install path yields a target path escaping
the install directory is rejected with an explicit error and contributes no
write, a list containing such an entry makes extraction end in an error,
every file content write of the loop lands at or inside the install path,
and an entry whose target path resolves inside the install path is extracted
normally. -/
theorem c1_tar_extraction_safety (installPath : String) :
    (∀ e : TarEntry, escapesInstall installPath e.name = true →
      extractEntry installPath e =
        Except.error ("invalid file path in archive: " ++ e.name)) ∧
    (∀ entries : List TarEntry, ∀ p c : String,
      FsWrite.writeFile p c ∈ (extractEntries installPath entries).1 →
      insideOrAt installPath p = true) ∧
    (∀ pre rest : List TarEntry, ∀ e : TarEntry,
      escapesInstall installPath e.name = true →
      ((extractEntries installPath (pre ++ e :: rest)).2).isSome = true) ∧
    (∀ e : TarEntry, resolvesInside installPath e.name = true →
      extractEntry installPath e = Except.ok (
        if e.typeflag = TypeFlag.dir then
          [FsWrite.mkdirAll (filepathJoin installPath e.name)]
        else if e.typeflag = TypeFlag.reg then
          [FsWrite.mkdirAll (filepathDir (filepathJoin installPath e.name)),
           FsWrite.writeFile (filepathJoin installPath e.name) e.content]
        else [])) :=
  ⟨fun e h => extractEntry_escape_error installPath e h,
   fun entries p c h => extractEntries_writes_inside installPath entries p c h,
   fun pre rest e h => extractEntries_error_of_escape installPath pre rest e h,
   fun e h => extractEntry_inside_ok installPath e h⟩

/-- Witness for C1: a concrete escaping entry is rejected with the explicit
error, and a concrete inside entry is extracted. -/
theorem c1_tar_extraction_safety_witness :
    (extractEntry "/opt/actions-runner" ⟨"../../etc/passwd", TypeFlag.reg, "x"⟩ =
      Except.error ("invalid file path in archive: " ++ "../../etc/passwd")) ∧
    (extractEntry "/opt/actions-runner" ⟨"bin/runsvc.sh", TypeFlag.reg, "x"⟩ =
      Except.ok [FsWrite.mkdirAll (filepathDir (filepathJoin "/opt/actions-runner" "bin/runsvc.sh")),
                 FsWrite.writeFile (filepathJoin "/opt/actions-runner" "bin/runsvc.sh") "x"]) :=
  ⟨(c1_tar_extraction_safety "/opt/actions-runner").1
      ⟨"../../etc/passwd", TypeFlag.reg, "x"⟩ (by decide),
   (c1_tar_extraction_safety "/opt/actions-runner").2.2.2
      ⟨"bin/runsvc.sh", TypeFlag.reg, "x"⟩ (by decide)⟩

/-- C9 counterexample: a tar entry whose type is neither directory nor
regular file is not always skipped silently; when its name escapes the
install path the loop reports an explicit error for it instead of
continuing. -/
theorem c9_counterexample :
    extractEntry "/opt/actions-runner" ⟨"../evil", TypeFlag.fifo, ""⟩ =
      Except.error ("invalid file path in archive: " ++ "../evil") := rfl

/-- C9 amended: an entry of a type other than directory or regular file
whose target path passes the containment check (resolves inside the install
path, or is the current directory entry) is skipped silently; it produces no
filesystem write and no error, and extraction continues with the remaining
entries. -/
theorem c9_other_types_skipped (installPath : String) (e : TarEntry) (rest : List TarEntry)
    (hdir : e.typeflag ≠ TypeFlag.dir) (hreg : e.typeflag ≠ TypeFlag.reg)
    (hok : e.name = "./" ∨ resolvesInside installPath e.name = true) :
    extractEntry installPath e = Except.ok [] ∧
    extractEntries installPath (e :: rest) = extractEntries installPath rest := by
  have h1 : extractEntry installPath e = Except.ok [] := by
    rcases hok with hname | hin
    · have hcheck : (e.name != "./" &&
          !((filepathClean installPath ++ "/").data.isPrefixOf
            (filepathJoin installPath e.name).data)) = false := by
        rw [hname]
        simp
      simp only [extractEntry, hcheck, Bool.false_eq_true, if_false]
      rw [if_neg hdir, if_neg hreg]
    · rw [extractEntry_inside_ok installPath e hin, if_neg hdir, if_neg hreg]
  refine ⟨h1, ?_⟩
  rw [extractEntries, h1]
  simp

/-- C2: shutdownVM attempts the four strategies strictly in the order
system call (after a filesystem sync), sysrq trigger, power management
interface, then the external command list; it stops at the first success,
succeeds exactly when some strategy succeeds, and when every strategy fails
it returns an aggregate error naming the failure of the last command. -/
theorem c2_shutdown_fallback_order (env : AgentEnv) :
    ((shutdownVM env).1 =
      [AgentEvent.syncFs, AgentEvent.rebootSyscall] ++
        (if syscallOk env = true then [] else
          [AgentEvent.sysrqAttempt] ++
            (if sysrqOk env = true then [] else
              [AgentEvent.powerStateAttempt] ++
                (if powerOk env = true then [] else
                  (cmdAttempts env).map AgentEvent.tryCommand)))) ∧
    ((shutdownVM env).2 = Except.ok () ↔
      (syscallOk env || sysrqOk env || powerOk env || !allCmdsFail env) = true) ∧
    (syscallOk env = false → sysrqOk env = false → powerOk env = false →
      allCmdsFail env = true →
      ∃ msg, env.runCmdRes ["systemctl", "poweroff"] = some msg ∧
        (shutdownVM env).2 =
          Except.error ("all shutdown methods failed, last error: " ++ msg)) := by
  cases hs1 : (shutdownViaSyscall env).2 with
  | ok u1 =>
    cases u1
    have h1 : syscallOk env = true := (syscall_ok_iff env).mp hs1
    refine ⟨?_, ?_, ?_⟩
    · simp only [shutdownVM, hs1]
      rw [h1]
      simp [shutdownViaSyscall]
    · simp only [shutdownVM, hs1]
      rw [h1]
      simp [hs1]
    · intro hc
      rw [h1] at hc
      exact absurd hc (by simp)
  | error e1 =>
    have h1 : syscallOk env = false := strategy_err_false (syscall_ok_iff env) hs1
    cases hs2 : (shutdownViaSysRq env).2 with
    | ok u2 =>
      cases u2
      have h2 : sysrqOk env = true := (sysrq_ok_iff env).mp hs2
      refine ⟨?_, ?_, ?_⟩
      · simp only [shutdownVM, hs1, hs2]
        rw [h1, h2]
        simp [shutdownViaSyscall, shutdownViaSysRq]
      · simp only [shutdownVM, hs1, hs2]
        rw [h2]
        simp
      · intro _ hc
        rw [h2] at hc
        exact absurd hc (by simp)
    | error e2 =>
      have h2 : sysrqOk env = false := strategy_err_false (sysrq_ok_iff env) hs2
      cases hs3 : (shutdownViaPowerState env).2 with
      | ok u3 =>
        cases u3
        have h3 : powerOk env = true := (power_ok_iff env).mp hs3
        refine ⟨?_, ?_, ?_⟩
        · simp only [shutdownVM, hs1, hs2, hs3]
          rw [h1, h2, h3]
          simp [shutdownViaSyscall, shutdownViaSysRq, shutdownViaPowerState]
        · simp only [shutdownVM, hs1, hs2, hs3]
          rw [h3]
          simp
        · intro _ _ hc
          rw [h3] at hc
          exact absurd hc (by simp)
      | error e3 =>
        have h3 : powerOk env = false := strategy_err_false (power_ok_iff env) hs3
        have htrace : (shutdownVM env).1 =
            [AgentEvent.syncFs, AgentEvent.rebootSyscall] ++ [AgentEvent.sysrqAttempt] ++
              [AgentEvent.powerStateAttempt] ++ (shutdownViaCommand env).1 := by
          simp only [shutdownVM, hs1, hs2, hs3]
          simp [shutdownViaSyscall, shutdownViaSysRq, shutdownViaPowerState]
        have hres : (shutdownVM env).2 = (shutdownViaCommand env).2 := by
          simp only [shutdownVM, hs1, hs2, hs3]
        refine ⟨?_, ?_, ?_⟩
        · rw [htrace, h1, h2, h3]
          simp only [Bool.false_eq_true, if_false]
          rw [shutdownViaCommand, runShutdownCommands_trace]
          simp [cmdAttempts]
        · rw [hres, h1, h2, h3]
          simp only [Bool.false_eq_true, if_false, Bool.false_or]
          cases hall : allCmdsFail env
          · have hex : ∃ argv ∈ shutdownCommands, env.runCmdRes argv = none := by
              rw [allCmdsFail, List.all_eq_false] at hall
              rcases hall with ⟨argv, hm, hp⟩
              exact ⟨argv, hm, Option.not_isSome_iff_eq_none.mp hp⟩
            rw [shutdownViaCommand, runShutdownCommands_ok env shutdownCommands none hex]
            simp
          · have hfail : ∀ argv ∈ shutdownCommands, (env.runCmdRes argv).isSome = true := by
              rw [allCmdsFail, List.all_eq_true] at hall
              exact hall
            rw [shutdownViaCommand, runShutdownCommands_allFail env shutdownCommands none hfail]
            simp
        · intro _ _ _ hall
          have hfail : ∀ argv ∈ shutdownCommands, (env.runCmdRes argv).isSome = true := by
            rw [allCmdsFail, List.all_eq_true] at hall
            exact hall
          have hlast : (env.runCmdRes ["systemctl", "poweroff"]).isSome = true :=
            hfail ["systemctl", "poweroff"] (by decide)
          rcases Option.isSome_iff_exists.mp hlast with ⟨msg, hmsg⟩
          refine ⟨msg, hmsg, ?_⟩
          rw [hres, shutdownViaCommand,
            runShutdownCommands_allFail env shutdownCommands none hfail]
          have hle : lastCmdErr env shutdownCommands none = some msg := by
            simp only [lastCmdErr, shutdownCommands, List.foldl_cons, List.foldl_nil]
            rw [hmsg]
          rw [hle]
          rfl

/-- Witness for C9 amended at a concrete symbolic link entry inside the
install path. -/
theorem c9_other_types_skipped_witness :
    extractEntry "/opt/actions-runner" ⟨"bin/sym", TypeFlag.symlink, ""⟩ = Except.ok [] ∧
    extractEntries "/opt/actions-runner" [⟨"bin/sym", TypeFlag.symlink, ""⟩] =
      extractEntries "/opt/actions-runner" [] :=
  c9_other_types_skipped "/opt/actions-runner" ⟨"bin/sym", TypeFlag.symlink, ""⟩ []
    (by decide) (by decide) (Or.inr (by decide))

/-- Witness for C2 in an environment where every strategy fails: the result
is the aggregate error naming the failure of the last command. -/
theorem c2_shutdown_fallback_order_witness :
    ∃ msg,
      (⟨some "eperm", some "eacces", none, some "enoent", none, none,
          fun _ => some "exit status 1", none, none, fun _ => none⟩ : AgentEnv).runCmdRes
        ["systemctl", "poweroff"] = some msg ∧
      (shutdownVM ⟨some "eperm", some "eacces", none, some "enoent", none, none,
          fun _ => some "exit status 1", none, none, fun _ => none⟩).2 =
        Except.error ("all shutdown methods failed, last error: " ++ msg) :=
  (c2_shutdown_fallback_order
      ⟨some "eperm", some "eacces", none, some "enoent", none, none,
        fun _ => some "exit status 1", none, none, fun _ => none⟩).2.2
    rfl rfl rfl rfl

/-- C3: cleanup always attempts removal of the install path and the work
directory before any shutdown strategy, records removal failures without
letting them change the control flow, and returns success whatever the
removal results and whatever every shutdown strategy returns. -/
theorem c3_cleanup_nonfatal (cfg : RunnerConfig) (env : AgentEnv) :
    (cleanup cfg env).2 = Except.ok () ∧
    (cleanup cfg env).1 =
      AgentEvent.removeAll
          (if cfg.runner.installPath = "" then DefaultInstallPath else cfg.runner.installPath)
          env.removeInstallRes ::
        AgentEvent.removeAll
          (if cfg.runner.workDir = "" then DefaultWorkDir else cfg.runner.workDir)
          env.removeWorkRes ::
        AgentEvent.sleep CleanupDelaySeconds :: (shutdownVM env).1 :=
  ⟨rfl, rfl⟩

/-- C4: when the ownership tags of the hypervisor-side VM do not satisfy
ownership validation against the caller, the Terminating step issues no
provider call at all (in particular no delete), and the claim is marked
Failed with a non-empty message. -/
theorem c4_fail_closed_ownership (op : OperatorIdentity) (claim : MachineClaim)
    (vmTags : OwnershipTags) (vm : VMRef) (href : claim.vmRef = some vm)
    (hbad : validateVMOwnership op vmTags = false) :
    (reconcileTerminating op claim vmTags).2 = [] ∧
    (reconcileTerminating op claim vmTags).1.phase = ClaimPhase.failed ∧
    (reconcileTerminating op claim vmTags).1.message ≠ "" := by
  simp only [reconcileTerminating, href, hbad, Bool.false_eq_true, if_false]
  refine ⟨trivial, trivial, by decide⟩

/-- Witness for C4 at concrete mismatching tags. -/
theorem c4_fail_closed_ownership_witness :
    (reconcileTerminating ⟨"hyperfleet", "instance-a"⟩
        ⟨ClaimPhase.ready, some ⟨"vm-100", "node-1"⟩, ""⟩
        ⟨"hyperfleet", "instance-b", "c1", "claim-1", "pool-1", "t"⟩).2 = [] ∧
    (reconcileTerminating ⟨"hyperfleet", "instance-a"⟩
        ⟨ClaimPhase.ready, some ⟨"vm-100", "node-1"⟩, ""⟩
        ⟨"hyperfleet", "instance-b", "c1", "claim-1", "pool-1", "t"⟩).1.phase =
      ClaimPhase.failed ∧
    (reconcileTerminating ⟨"hyperfleet", "instance-a"⟩
        ⟨ClaimPhase.ready, some ⟨"vm-100", "node-1"⟩, ""⟩
        ⟨"hyperfleet", "instance-b", "c1", "claim-1", "pool-1", "t"⟩).1.message ≠ "" :=
  c4_fail_closed_ownership ⟨"hyperfleet", "instance-a"⟩
    ⟨ClaimPhase.ready, some ⟨"vm-100", "node-1"⟩, ""⟩
    ⟨"hyperfleet", "instance-b", "c1", "claim-1", "pool-1", "t"⟩
    ⟨"vm-100", "node-1"⟩ rfl (by decide)

/-- C5: reconciling a Pending claim with no VM reference twice in a row
issues exactly one create call, because the step checks for an existing VM
reference before creating. -/
theorem c5_idempotent_create (claim : MachineClaim) (newVM : VMRef)
    (_hphase : claim.phase = ClaimPhase.pending) (href : claim.vmRef = none) :
    reconcileProvisionTwice claim newVM = [EngineCall.createVM] := by
  simp [reconcileProvisionTwice, reconcileProvisionStep, href]

/-- Witness for C5 at a concrete fresh claim. -/
theorem c5_idempotent_create_witness :
    reconcileProvisionTwice ⟨ClaimPhase.pending, none, ""⟩ ⟨"vm-1", "node-1"⟩ =
      [EngineCall.createVM] :=
  c5_idempotent_create ⟨ClaimPhase.pending, none, ""⟩ ⟨"vm-1", "node-1"⟩ rfl rfl

/-- C6: configureRunner invokes the configuration script located inside the
install path, with the install path as working directory, passing exactly
the registration url, the token, the runner name, the comma-joined labels,
the work directory, and the unattended and ephemeral flags. -/
theorem c6_configure_runner_invocation (cfg : RunnerConfig) (env : AgentEnv) :
    (configureRunner cfg env).1 =
      ⟨filepathJoin
          (if cfg.runner.installPath = "" then DefaultInstallPath else cfg.runner.installPath)
          (if cfg.runner.configScript = "" then DefaultConfigScript else cfg.runner.configScript),
        ["--url", cfg.registrationURL,
         "--token", cfg.runnerToken,
         "--name", cfg.runnerName,
         "--labels", String.intercalate "," cfg.labels,
         "--work", if cfg.runner.workDir = "" then DefaultWorkDir else cfg.runner.workDir,
         "--unattended",
         "--ephemeral"],
        if cfg.runner.installPath = "" then DefaultInstallPath else cfg.runner.installPath⟩ :=
  rfl

/-- C10: with any configured method other than runner-token, the join-token
method included, main terminates with a fatal error and performs none of the
download, configure, run and cleanup phases. -/
theorem c10_non_runner_token_fatal (cfg : RunnerConfig) (r : PhaseResults)
    (h : cfg.method ≠ "runner-token") :
    (mainDispatch cfg r).1 = [] ∧
    (mainDispatch cfg r).2 =
      Except.error (if cfg.method = "join-token"
        then "Pure SPIFFE/SPIRE bootstrap not yet implemented"
        else "Unsupported attestation method: " ++ cfg.method) := by
  by_cases hj : cfg.method = "join-token"
  · simp [mainDispatch, h, hj]
  · simp [mainDispatch, h, hj]

/-- Replacing the first condition of a type makes it the one found for that
type. -/
theorem findCondition_setCondAux (c : MetaCondition) (conds : List MetaCondition) :
    findCondition (setCondAux c conds) c.condType = some c := by
  induction conds with
  | nil => simp [setCondAux, findCondition]
  | cons x xs ih =>
    by_cases hx : (x.condType == c.condType) = true
    · simp [setCondAux, hx, findCondition]
    · simp only [setCondAux, hx, Bool.false_eq_true, if_false]
      simp only [findCondition, List.find?_cons, hx]
      exact ih

/-- C7: a missing referenced cluster yields a False TemplateValid condition
with reason ClusterNotFound and no provider client creation; a cluster
without a Ready condition yields a False TemplateValid condition with reason
ClusterNotReady and no provider client creation; and the TemplateValid
condition can only come out True when the cluster is ready and validation
with the provider succeeded. -/
theorem c7_template_validation_gate (template : HypervisorMachineTemplate)
    (st : TemplateStatus) :
    (∀ out, validateTemplate ClusterLookup.notFound template st = Except.ok out →
      out.createClientCalled = false ∧
      ∃ c, findCondition out.conditions "TemplateValid" = some c ∧
        c.status = "False" ∧ c.reason = "ClusterNotFound") ∧
    (∀ cluster out, isClusterReady cluster = false →
      validateTemplate (ClusterLookup.found cluster) template st = Except.ok out →
      out.createClientCalled = false ∧
      ∃ c, findCondition out.conditions "TemplateValid" = some c ∧
        c.status = "False" ∧ c.reason = "ClusterNotReady") ∧
    (∀ cluster out c, validateTemplate (ClusterLookup.found cluster) template st =
        Except.ok out →
      findCondition out.conditions "TemplateValid" = some c → c.status = "True" →
      isClusterReady cluster = true ∧ validateWithProvider template cluster = Except.ok ()) := by
  refine ⟨?_, ?_, ?_⟩
  · intro out hout
    simp only [validateTemplate, Except.ok.injEq] at hout
    subst hout
    exact ⟨rfl, ⟨_, findCondition_setCondAux _ st.conditions, rfl, rfl⟩⟩
  · intro cluster out hready hout
    simp only [validateTemplate, hready, Bool.not_false, if_true, Except.ok.injEq] at hout
    subst hout
    exact ⟨rfl, ⟨_, findCondition_setCondAux _ st.conditions, rfl, rfl⟩⟩
  · intro cluster out c hout hfind hstatus
    cases hready : isClusterReady cluster with
    | false =>
      simp only [validateTemplate, hready, Bool.not_false, if_true, Except.ok.injEq] at hout
      subst hout
      rw [findCondition_setCondAux _ st.conditions] at hfind
      injection hfind with hc
      subst hc
      exact absurd hstatus (by decide)
    | true =>
      refine ⟨rfl, ?_⟩
      cases hvp : validateWithProvider template cluster with
      | error e =>
        simp only [validateTemplate, hready, Bool.not_true, Bool.false_eq_true, if_false,
          hvp, Except.ok.injEq] at hout
        subst hout
        rw [findCondition_setCondAux _ st.conditions] at hfind
        injection hfind with hc
        subst hc
        simp at hstatus
      | ok u =>
        cases u
        rfl

/-- Witness for C7 at a concrete template with a missing cluster. -/
theorem c7_template_validation_gate_witness :
    (⟨[⟨"TemplateValid", "False", "ClusterNotFound",
        "Referenced HypervisorCluster not found"⟩], false, "", false⟩ :
          ValidateOutcome).createClientCalled = false ∧
    ∃ c, findCondition (⟨[⟨"TemplateValid", "False", "ClusterNotFound",
        "Referenced HypervisorCluster not found"⟩], false, "", false⟩ :
          ValidateOutcome).conditions "TemplateValid" = some c ∧
      c.status = "False" ∧ c.reason = "ClusterNotFound" :=
  (c7_template_validation_gate ⟨"test-cluster", some ⟨9000⟩, ⟨2⟩⟩ ⟨[], false, ""⟩).1
    ⟨[⟨"TemplateValid", "False", "ClusterNotFound",
        "Referenced HypervisorCluster not found"⟩], false, "", false⟩ rfl

/-- C8 counterexample: the claim promises that the returned client
implements the capability interface CreateVM, DeleteVM, GetVMStatus, TagVM,
ValidateTemplate, but the client interface declared by the code does not
contain the CreateVM capability (its methods are TestConnection and Close
only). -/
theorem c8_counterexample :
    ("CreateVM" ∈ specProviderCapabilities) ∧ "CreateVM" ∉ hypervisorClientMethods := by
  decide

/-- C8 amended: client selection is a data-driven dispatch on the
lower-cased provider string: the proxmox provider with non-nil
configurations yields a client (implementing the interface the code
declares), and every other provider string yields an error naming the
unsupported provider. -/
theorem c8_provider_dispatch (provider : String) (config : Option ClientConfig)
    (auth : Option AuthConfig) :
    (goToLower provider = "proxmox" → config.isSome = true → auth.isSome = true →
      ∃ client, CreateClient provider config auth = Except.ok client) ∧
    (goToLower provider ≠ "proxmox" →
      CreateClient provider config auth =
        Except.error ("unsupported hypervisor provider: " ++ provider)) := by
  constructor
  · intro hp hc ha
    rcases Option.isSome_iff_exists.mp hc with ⟨c, rfl⟩
    rcases Option.isSome_iff_exists.mp ha with ⟨a, rfl⟩
    exact ⟨⟨c.endpoint, a⟩, by simp [CreateClient, hp, NewProxmoxClient]⟩
  · intro hp
    simp [CreateClient, hp]

/-- Witness for C8 amended: the proxmox provider in upper case yields a
client, and an unsupported provider yields the error naming it. -/
theorem c8_provider_dispatch_witness :
    (∃ client, CreateClient "PROXMOX"
        (some ⟨"https://pve.example.com:8006/api2/json", 300⟩)
        (some ⟨"token", "test-token-id", "test-token-secret", "", ""⟩) =
      Except.ok client) ∧
    CreateClient "vmware" (some ⟨"https://pve.example.com:8006/api2/json", 300⟩)
        (some ⟨"token", "", "", "", ""⟩) =
      Except.error ("unsupported hypervisor provider: " ++ "vmware") :=
  ⟨(c8_provider_dispatch "PROXMOX"
      (some ⟨"https://pve.example.com:8006/api2/json", 300⟩)
      (some ⟨"token", "test-token-id", "test-token-secret", "", ""⟩)).1
      (by decide) rfl rfl,
   (c8_provider_dispatch "vmware" (some ⟨"https://pve.example.com:8006/api2/json", 300⟩)
      (some ⟨"token", "", "", "", ""⟩)).2 (by decide)⟩

/-- Witness for C10 at a concrete join-token configuration. -/
theorem c10_non_runner_token_fatal_witness :
    (mainDispatch ⟨"join-token", "", "", "", "", [], "",
        ⟨"", "", "", "", "", "", ""⟩, ⟨"", "", false⟩⟩ ⟨none, none, none⟩).1 = [] ∧
    (mainDispatch ⟨"join-token", "", "", "", "", [], "",
        ⟨"", "", "", "", "", "", ""⟩, ⟨"", "", false⟩⟩ ⟨none, none, none⟩).2 =
      Except.error (if ("join-token" : String) = "join-token"
        then "Pure SPIFFE/SPIRE bootstrap not yet implemented"
        else "Unsupported attestation method: " ++ "join-token") :=
  c10_non_runner_token_fatal ⟨"join-token", "", "", "", "", [], "",
      ⟨"", "", "", "", "", "", ""⟩, ⟨"", "", false⟩⟩ ⟨none, none, none⟩ (by decide)

end HyperFleet
